import Mathlib

/-!
Shallow embedding of the BLE UART Central (src/BLEUartCentral.py, class BLECentral)
and Peripheral (src/BLEUartPeripheral.py, class BLEperipheral).

Modelling conventions:
- Python optional fields (initialised to None) are Option-typed; Python truthiness
  tests (`if x:`) are modelled by explicit truthiness functions (None and 0 and the
  empty byte string are falsy).
- Byte strings are lists of naturals; callbacks are identified by an Option Nat
  (None = no callback registered, some k = a particular callback object).
- Transport requests, callback invocations and diagnostic prints performed by a
  method are returned as an explicit list of Actions; the BLE stack itself
  (bluetooth module, ble_advertising codec) is external, so scan-result events
  carry the already-decoded service flag and advertised name.
- The IRQ dispatcher (_irq) is one function from an event variant to the new
  state plus emitted actions.
-/

namespace BLEUart

/-- Python truthiness of an optional integer field: None and 0 are falsy. -/
def truthyNat : Option Nat → Bool
  | none => false
  | some n => n != 0

/-- Python truthiness of an optional byte-string field: None and b'' are falsy. -/
def truthyBytes : Option (List Nat) → Bool
  | none => false
  | some bs => !bs.isEmpty

namespace BLECentral

/-- `_TARGET_PERIPHERAL_NAME` in src/BLEUartCentral.py. -/
def TARGET_PERIPHERAL_NAME : String := "ID000001"

/-- `_NBCHAR`: number of characters of the advertised name compared. -/
def NBCHAR : Nat := 8

/-- `_T_WAIT`: polling interval (ms) of wait_for_connection. -/
def T_WAIT : Nat := 100

/-- Which of the three UART UUIDs (or some other UUID) an event reports;
`_UART_SERVICE_UUID`, `_UART_RX_CHAR_UUID`, `_UART_TX_CHAR_UUID` are distinct
fixed 128-bit values, so only their identity matters to the dispatch. -/
inductive BUuid where
  | uartService
  | uartRx
  | uartTx
  | other (n : Nat)
deriving DecidableEq

/-- The transport events handled by BLECentral._irq; advertising payload decoding
(decode_services / decode_name) is external, so a scan result carries the decoded
facts: whether the payload declares the UART service, and the decoded name
(the empty string models a falsy decode_name result). -/
inductive Event where
  | scanResult (addr_type : Nat) (addr : List Nat) (adv_type : Nat) (rssi : Int)
      (hasUartService : Bool) (advName : String)
  | scanDone
  | peripheralConnect (conn_handle addr_type : Nat) (addr : List Nat)
  | peripheralDisconnect (conn_handle addr_type : Nat) (addr : List Nat)
  | serviceResult (conn_handle start_handle end_handle : Nat) (uuid : BUuid)
  | serviceDone (conn_handle : Nat)
  | characteristicResult (conn_handle def_handle value_handle properties : Nat) (uuid : BUuid)
  | characteristicDone (conn_handle : Nat)
  | writeDone (conn_handle value_handle status : Nat)
  | gattcNotify (conn_handle value_handle : Nat) (notify_data : List Nat)
  | mtuExchanged (conn_handle mtu : Nat)
deriving DecidableEq

/-- Transport requests, callback invocations and diagnostic prints emitted by the
Central; arguments mirror exactly what the Python code passes. -/
inductive Action where
  | gapScanStop
  | gapScanStart (duration_ms interval_us window_us : Nat) (active : Bool)
  | gapConnect (addr_type : Option Nat) (addr : Option (List Nat))
  | gapDisconnect (conn_handle : Nat)
  | exchangeMtu (conn_handle : Option Nat)
  | discoverServices (conn_handle : Option Nat)
  | discoverCharacteristics (conn_handle start_handle end_handle : Option Nat)
  | gattcWrite (conn_handle rx_handle : Option Nat) (data : List Nat) (mode : Nat)
  | scanCb (cb : Nat) (addr_type : Option Nat) (addr : Option (List Nat)) (name : Option String)
  | connCb (cb : Nat)
  | notifyCb (cb : Nat) (data : List Nat)
  | logServiceUnreachable
  | logRxNotDiscoverable
deriving DecidableEq

/-- The mutable attributes set by BLECentral._reset. -/
structure CentralState where
  name : Option String
  addr_type : Option Nat
  addr : Option (List Nat)
  scan_callback : Option Nat
  conn_callback : Option Nat
  read_callback : Option Nat
  notify_callback : Option Nat
  conn_handle : Option Nat
  start_handle : Option Nat
  end_handle : Option Nat
  tx_handle : Option Nat
  rx_handle : Option Nat
deriving DecidableEq

/-- BLECentral._reset: every cached field back to None. -/
def resetState : CentralState :=
  { name := none, addr_type := none, addr := none,
    scan_callback := none, conn_callback := none,
    read_callback := none, notify_callback := none,
    conn_handle := none, start_handle := none, end_handle := none,
    tx_handle := none, rx_handle := none }

/-- BLECentral._irq: the event dispatcher.  Each branch mirrors the corresponding
`elif event == ...` branch of the Python source. -/
def irq (s : CentralState) (ev : Event) : CentralState × List Action :=
  match ev with
  | .scanResult addr_type addr adv_type _rssi hasUartService advName =>
      -- if adv_type in (_ADV_IND, _ADV_DIRECT_IND) and _UART_SERVICE_UUID in decode_services(adv_data)
      if (adv_type = 0 ∨ adv_type = 1) ∧ hasUartService = true then
        -- self._name = decode_name(adv_data) or "?"
        let decoded := if advName = "" then "?" else advName
        let s1 := { s with name := some decoded }
        -- if self._name[0:_NBCHAR] == _TARGET_PERIPHERAL_NAME[0:_NBCHAR]
        if decoded.toList.take NBCHAR = TARGET_PERIPHERAL_NAME.toList.take NBCHAR then
          ({ s1 with addr_type := some addr_type, addr := some addr, name := some decoded },
            [.gapScanStop])
        else (s1, [])
      else (s, [])
  | .scanDone =>
      match s.scan_callback with
      | some cb =>
          if truthyBytes s.addr then
            -- success: callback fired with cached triple, then cleared
            ({ s with scan_callback := none }, [.scanCb cb s.addr_type s.addr s.name])
          else
            -- timeout: callback fired with the None triple; NOT cleared in the source
            (s, [.scanCb cb none none none])
      | none => (s, [])
  | .peripheralConnect conn_handle addr_type addr =>
      if s.addr_type = some addr_type ∧ s.addr = some addr then
        let s1 := { s with conn_handle := some conn_handle }
        (s1, [.exchangeMtu s1.conn_handle, .discoverServices s1.conn_handle])
      else (s, [])
  | .peripheralDisconnect conn_handle _ _ =>
      if s.conn_handle = some conn_handle then (resetState, []) else (s, [])
  | .serviceResult conn_handle start_handle end_handle uuid =>
      if s.conn_handle = some conn_handle ∧ uuid = BUuid.uartService then
        ({ s with start_handle := some start_handle, end_handle := some end_handle }, [])
      else (s, [])
  | .serviceDone _ =>
      -- if self._start_handle and self._end_handle  (truthiness: None and 0 falsy)
      if truthyNat s.start_handle && truthyNat s.end_handle then
        (s, [.discoverCharacteristics s.conn_handle s.start_handle s.end_handle])
      else (s, [.logServiceUnreachable])
  | .characteristicResult conn_handle _ value_handle _ uuid =>
      let s1 := if s.conn_handle = some conn_handle ∧ uuid = BUuid.uartRx then
          { s with rx_handle := some value_handle } else s
      let s2 := if s.conn_handle = some conn_handle ∧ uuid = BUuid.uartTx then
          { s1 with tx_handle := some value_handle } else s1
      (s2, [])
  | .characteristicDone _ =>
      -- if self._tx_handle is not None and self._rx_handle is not None
      if s.tx_handle.isSome && s.rx_handle.isSome then
        match s.conn_callback with
        | some cb => (s, [.connCb cb])
        | none => (s, [])
      else (s, [.logRxNotDiscoverable])
  | .writeDone _ _ _ => (s, [])
  | .gattcNotify conn_handle value_handle notify_data =>
      if s.conn_handle = some conn_handle ∧ s.tx_handle = some value_handle then
        match s.notify_callback with
        | some cb => (s, [.notifyCb cb notify_data])
        | none => (s, [])
      else (s, [])
  | .mtuExchanged _ _ => (s, [])

/-- BLECentral.is_connected. -/
def is_connected (s : CentralState) : Bool :=
  s.conn_handle.isSome && s.tx_handle.isSome && s.rx_handle.isSome

/-- BLECentral.scan: clears cached address type and address, stores the callback,
and requests gap_scan(2000, 30000, 30000, True) (an OSError from the request is
swallowed, so the state change is unconditional). -/
def scan (s : CentralState) (callback : Option Nat) : CentralState × List Action :=
  ({ s with addr_type := none, addr := none, scan_callback := callback },
    [.gapScanStart 2000 30000 30000 true])

/-- BLECentral.connect: explicit address type and address (when both given)
override the cached scan result; the callback is stored unconditionally; the call
fails (False, no transport request) when the resulting address type or address is
None, and otherwise requests gap_connect (OSError swallowed) and returns True. -/
def connect (s : CentralState) (addr_type : Option Nat) (addr : Option (List Nat))
    (callback : Option Nat) : CentralState × Bool × List Action :=
  let s1 := if addr_type.isSome && addr.isSome then
      { s with addr_type := addr_type, addr := addr } else s
  let s2 := { s1 with conn_callback := callback }
  if s2.addr_type.isNone || s2.addr.isNone then (s2, false, [])
  else (s2, true, [.gapConnect s2.addr_type s2.addr])

/-- BLECentral.disconnect: `if not self._conn_handle: return` (truthiness: a None
or 0 handle skips everything), otherwise request gap_disconnect (OSError
swallowed) and reset every field. -/
def disconnect (s : CentralState) : CentralState × List Action :=
  if truthyNat s.conn_handle then
    (resetState, [.gapDisconnect (s.conn_handle.getD 0)])
  else (s, [])

/-- The polling loop of BLECentral.wait_for_connection: starting from elapsed
time t, sleep _T_WAIT per iteration while t < timeout_ms, then return False.
The loop body only sleeps; the connection status is never consulted. -/
def waitFrom (t timeout_ms : Nat) : Bool :=
  if t < timeout_ms then waitFrom (t + T_WAIT) timeout_ms else false
termination_by timeout_ms - t
decreasing_by simp only [T_WAIT]; omega

/-- BLECentral.wait_for_connection(status, timeout_ms): the status parameter is
never read by the body. -/
def wait_for_connection (_status : Bool) (timeout_ms : Nat) : Bool :=
  waitFrom 0 timeout_ms

/-- BLECentral.write: no-op when not connected, otherwise a gattc_write request
to the RX handle with mode 1 (with response) or 0. -/
def write (s : CentralState) (v : List Nat) (responseFlag : Bool) : List Action :=
  if is_connected s then
    [.gattcWrite s.conn_handle s.rx_handle v (if responseFlag then 1 else 0)]
  else []

/-- BLECentral.on_notify. -/
def on_notify (s : CentralState) (callback : Option Nat) : CentralState :=
  { s with notify_callback := callback }

end BLECentral

namespace BLEperipheral

/-- The transport events handled by BLEperipheral._irq.  A gatts-write event
carries the bytes that gatts_read returns for the written characteristic. -/
inductive PEvent where
  | centralConnect (conn_handle : Nat)
  | centralDisconnect (conn_handle : Nat)
  | gattsWrite (conn_handle value_handle : Nat) (written : List Nat)
  | mtuExchanged (conn_handle mtu : Nat)
deriving DecidableEq

/-- Transport requests and handler invocations emitted by the Peripheral. -/
inductive PAction where
  | gattsNotify (conn_handle tx_handle : Nat) (data : List Nat)
  | gapAdvertise (interval_us : Nat)
  | gapDisconnect (conn_handle : Nat)
  | handlerCall (h : Nat)
deriving DecidableEq

/-- The mutable attributes of BLEperipheral: the registered characteristic value
handles, the connection registry (a set, modelled as a duplicate-free list), the
RX message buffer, and the receive handler. -/
structure PeripheralState where
  tx_handle : Nat
  rx_handle : Nat
  connections : List Nat
  rx_buffer : List Nat
  handler : Option Nat
deriving DecidableEq

/-- BLEperipheral._irq: the event dispatcher. -/
def irq (s : PeripheralState) (ev : PEvent) : PeripheralState × List PAction :=
  match ev with
  | .centralConnect conn_handle =>
      ({ s with connections :=
          if conn_handle ∈ s.connections then s.connections
          else s.connections ++ [conn_handle] }, [])
  | .centralDisconnect conn_handle =>
      -- remove if present, then unconditionally restart advertising
      let s1 := if conn_handle ∈ s.connections then
          { s with connections := s.connections.filter (fun c => c != conn_handle) } else s
      (s1, [.gapAdvertise 500000])
  | .gattsWrite conn_handle value_handle written =>
      if conn_handle ∈ s.connections ∧ value_handle = s.rx_handle then
        let s1 := { s with rx_buffer := s.rx_buffer ++ written }
        match s.handler with
        | some h => (s1, [.handlerCall h])
        | none => (s1, [])
      else (s, [])
  | .mtuExchanged _ _ => (s, [])

/-- BLEperipheral.any. -/
def any (s : PeripheralState) : Nat := s.rx_buffer.length

/-- BLEperipheral.read: `if not sz: sz = len(self._rx_buffer)` (so both None and
the number 0 select the whole buffer), then return buffer[0:sz] and keep
buffer[sz:]. -/
def read (s : PeripheralState) (sz : Option Nat) : List Nat × PeripheralState :=
  let n := match sz with
    | none => s.rx_buffer.length
    | some k => if k = 0 then s.rx_buffer.length else k
  (s.rx_buffer.take n, { s with rx_buffer := s.rx_buffer.drop n })

/-- BLEperipheral.write: one gatts_notify per registered connection, carrying the
payload to the TX handle. -/
def write (s : PeripheralState) (data : List Nat) : List PAction :=
  s.connections.map (fun conn_handle => PAction.gattsNotify conn_handle s.tx_handle data)

/-- BLEperipheral.close: disconnect every registered session, clear the registry. -/
def close (s : PeripheralState) : PeripheralState × List PAction :=
  ({ s with connections := [] },
    s.connections.map (fun conn_handle => PAction.gapDisconnect conn_handle))

/-- BLEperipheral.is_connected. -/
def is_connected (s : PeripheralState) : Bool :=
  s.connections.length > 0

end BLEperipheral

end BLEUart

open BLEUart

/-- A ready-to-fire Central state: callback registered, session and both
characteristic handles resolved. -/
def c1state : BLECentral.CentralState :=
  { BLECentral.resetState with
    conn_callback := some 5, conn_handle := some 1,
    tx_handle := some 3, rx_handle := some 4 }

/-- A Peripheral state with a two-byte buffer and no registered sessions. -/
def p2state : BLEperipheral.PeripheralState :=
  { tx_handle := 1, rx_handle := 2, connections := [], rx_buffer := [97, 98], handler := none }

/-- A Peripheral state with one registered session and a two-byte buffer. -/
def p2wstate : BLEperipheral.PeripheralState :=
  { tx_handle := 1, rx_handle := 2, connections := [4], rx_buffer := [97, 98], handler := none }

/-- A Central state holding the falsy session handle 0 with both characteristic
handles resolved. -/
def c3state : BLECentral.CentralState :=
  { BLECentral.resetState with conn_handle := some 0, tx_handle := some 7, rx_handle := some 8 }

/-- A Central state with a truthy (nonzero) session handle. -/
def c3wstate : BLECentral.CentralState :=
  { BLECentral.resetState with conn_handle := some 3 }

/-- A Central state with an active session and nothing discovered yet. -/
def c6state : BLECentral.CentralState :=
  { BLECentral.resetState with conn_handle := some 1 }

/-- A Central state with a scan callback registered and no address cached. -/
def c7state : BLECentral.CentralState :=
  { BLECentral.resetState with scan_callback := some 7 }

/-- A Central state with a scan callback registered and the target cached. -/
def c7wstate : BLECentral.CentralState :=
  { BLECentral.resetState with
    scan_callback := some 9, addr := some [1, 2],
    addr_type := some 0, name := some "ID000001" }

/-- A Central state carrying identity fields cached by a previous scan cycle. -/
def c8state : BLECentral.CentralState :=
  { BLECentral.resetState with name := some "STALE", addr := some [1, 2], addr_type := some 0 }

/-- A Peripheral state whose buffer is shorter than the read request below. -/
def p9state : BLEperipheral.PeripheralState :=
  { tx_handle := 1, rx_handle := 2, connections := [], rx_buffer := [5, 6], handler := none }

/-- C1: on a characteristic-done event, with a connection callback registered, the
callback fires iff both the TX and RX value handles are set; a ready callback never
fires while either handle is missing, and in that case the session stays not-ready. -/
theorem c1_ready_iff (s : BLECentral.CentralState) (c cb : Nat)
    (h : s.conn_callback = some cb) :
    (BLECentral.Action.connCb cb ∈
        (BLECentral.irq s (BLECentral.Event.characteristicDone c)).2 ↔
      s.tx_handle.isSome = true ∧ s.rx_handle.isSome = true) ∧
    (∀ cb2, BLECentral.Action.connCb cb2 ∈
        (BLECentral.irq s (BLECentral.Event.characteristicDone c)).2 →
      s.tx_handle.isSome = true ∧ s.rx_handle.isSome = true) ∧
    (s.tx_handle.isSome = false ∨ s.rx_handle.isSome = false →
      BLECentral.is_connected ((BLECentral.irq s (BLECentral.Event.characteristicDone c)).1)
        = false) := by
  by_cases htx : s.tx_handle.isSome = true <;> by_cases hrx : s.rx_handle.isSome = true <;>
    simp_all [BLECentral.irq, BLECentral.is_connected]

/-- C1 witness: in a state with callback 5 registered and handles 3/4 resolved, the
characteristic-done event fires the callback. -/
theorem c1_witness :
    BLECentral.Action.connCb 5 ∈
      (BLECentral.irq c1state (BLECentral.Event.characteristicDone 1)).2 :=
  (c1_ready_iff c1state 1 5 rfl).1.mpr (by decide)

/-- C2 counterexample: read(0) returns the whole buffer, not the empty length-0
initial segment (Python truthiness treats sz = 0 as unspecified). -/
theorem c2_read_zero_cex :
    ¬ ((BLEperipheral.read p2state (some 0)).1 = List.take 0 p2state.rx_buffer) := by
  decide

/-- C2 amended: an inbound write from a registered session appends to the buffer in
FIFO order; for every nonzero sz, read(sz) removes and returns the first sz bytes
leaving the rest queued in order; read with no size drains the whole buffer; take
and drop recombine to the original buffer, so no bytes are reordered or dropped. -/
theorem c2_fifo_read (s : BLEperipheral.PeripheralState) (conn : Nat)
    (data : List Nat) (sz : Nat) (hc : conn ∈ s.connections) (hsz : sz ≠ 0) :
    ((BLEperipheral.irq s (BLEperipheral.PEvent.gattsWrite conn s.rx_handle data)).1.rx_buffer
        = s.rx_buffer ++ data) ∧
    BLEperipheral.read s (some sz)
        = (s.rx_buffer.take sz, { s with rx_buffer := s.rx_buffer.drop sz }) ∧
    BLEperipheral.read s none = (s.rx_buffer, { s with rx_buffer := [] }) ∧
    s.rx_buffer.take sz ++ s.rx_buffer.drop sz = s.rx_buffer := by
  refine ⟨?_, ?_, ?_, List.take_append_drop _ _⟩
  · simp only [BLEperipheral.irq]
    split
    · cases s.handler <;> rfl
    · simp_all
  · simp [BLEperipheral.read, hsz]
  · simp [BLEperipheral.read]

/-- C2 witness: appending bytes 99,100 to buffer 97,98 yields 97,98,99,100. -/
theorem c2_witness :
    (BLEperipheral.irq p2wstate (BLEperipheral.PEvent.gattsWrite 4 2 [99, 100])).1.rx_buffer
      = [97, 98, 99, 100] :=
  (c2_fifo_read p2wstate 4 [99, 100] 1 (by decide) (by decide)).1

/-- C3 counterexample: with the falsy session handle 0 and both characteristic
handles set, disconnect() is a no-op, so is_connected() still returns true. -/
theorem c3_disconnect_cex :
    BLECentral.is_connected (BLECentral.disconnect c3state).1 = true := by decide

/-- C3 amended: when the connection handle is truthy (set and nonzero), disconnect
resets every session-scoped field to its initial unset value and is_connected then
returns false; when the handle is None or 0, disconnect leaves the state unchanged. -/
theorem c3_disconnect_reset (s : BLECentral.CentralState) :
    (truthyNat s.conn_handle = true →
      (BLECentral.disconnect s).1 = BLECentral.resetState ∧
        BLECentral.is_connected (BLECentral.disconnect s).1 = false) ∧
    (truthyNat s.conn_handle = false → (BLECentral.disconnect s).1 = s) := by
  by_cases hct : truthyNat s.conn_handle = true <;>
    simp_all [BLECentral.disconnect, BLECentral.is_connected, BLECentral.resetState]

/-- C3 witness: from a state with the truthy handle 3, disconnect resets everything. -/
theorem c3_witness :
    (BLECentral.disconnect c3wstate).1 = BLECentral.resetState :=
  ((c3_disconnect_reset c3wstate).1 (by decide)).1

/-- C4: Peripheral.write(X) emits a notify carrying X unchanged to the TX handle of
exactly the sessions in the connection registry at call time; any other session (in
particular one added after the call) receives nothing, and no acknowledgement
action exists. -/
theorem c4_write_broadcast (s : BLEperipheral.PeripheralState) (data : List Nat)
    (c h : Nat) (d : List Nat) :
    BLEperipheral.PAction.gattsNotify c h d ∈ BLEperipheral.write s data ↔
      c ∈ s.connections ∧ h = s.tx_handle ∧ d = data := by
  simp only [BLEperipheral.write, List.mem_map, BLEperipheral.PAction.gattsNotify.injEq]
  constructor
  · rintro ⟨a, ha, rfl, rfl, rfl⟩
    exact ⟨ha, rfl, rfl⟩
  · rintro ⟨hc, rfl, rfl⟩
    exact ⟨c, hc, rfl, rfl, rfl⟩

/-- The polling loop of wait_for_connection returns false from every starting
point, for every timeout. -/
theorem waitFrom_false (t timeout_ms : Nat) : BLECentral.waitFrom t timeout_ms = false := by
  unfold BLECentral.waitFrom
  split
  · exact waitFrom_false (t + BLECentral.T_WAIT) timeout_ms
  · rfl
termination_by timeout_ms - t
decreasing_by simp only [BLECentral.T_WAIT]; omega

/-- C5: wait_for_connection never consults the connection status and returns false
for every expected status and every timeout — it can never surface the documented
success outcome (true when the status is reached before the timeout). -/
theorem c5_wait_always_false (status : Bool) (timeout_ms : Nat) :
    BLECentral.wait_for_connection status timeout_ms = false :=
  waitFrom_false 0 timeout_ms

/-- C6 counterexample: a matching service-result event with start handle 0 records
the span (0, 5), yet the subsequent service-done issues no characteristic-discovery
request and reports the service unreachable (Python truthiness treats handle 0 as
unset). -/
theorem c6_zero_handle_cex :
    ((BLECentral.irq c6state
        (BLECentral.Event.serviceResult 1 0 5 BLECentral.BUuid.uartService)).1.start_handle
      = some 0) ∧
    ((BLECentral.irq c6state
        (BLECentral.Event.serviceResult 1 0 5 BLECentral.BUuid.uartService)).1.end_handle
      = some 5) ∧
    ((BLECentral.irq
        (BLECentral.irq c6state
          (BLECentral.Event.serviceResult 1 0 5 BLECentral.BUuid.uartService)).1
        (BLECentral.Event.serviceDone 1)).2
      = [BLECentral.Action.logServiceUnreachable]) := by decide

/-- C6 amended: on service-done, a characteristic-discovery request over the
recorded span is issued exactly when both recorded handles are truthy (set and
nonzero); otherwise no request is issued and the service is reported unreachable.
A service-result event records the span iff it matches the current session handle
and the UART service identifier. -/
theorem c6_service_done (s : BLECentral.CentralState) (c st en : Nat)
    (u : BLECentral.BUuid) :
    ((BLECentral.irq s (BLECentral.Event.serviceDone c)).2 =
      if truthyNat s.start_handle && truthyNat s.end_handle then
        [BLECentral.Action.discoverCharacteristics s.conn_handle s.start_handle s.end_handle]
      else [BLECentral.Action.logServiceUnreachable]) ∧
    ((BLECentral.irq s (BLECentral.Event.serviceResult c st en u)).1.start_handle =
      if s.conn_handle = some c ∧ u = BLECentral.BUuid.uartService then some st
      else s.start_handle) ∧
    ((BLECentral.irq s (BLECentral.Event.serviceResult c st en u)).1.end_handle =
      if s.conn_handle = some c ∧ u = BLECentral.BUuid.uartService then some en
      else s.end_handle) := by
  refine ⟨?_, ?_, ?_⟩ <;> simp only [BLECentral.irq] <;> split <;> simp

/-- C7 counterexample: on scan-done in the timeout outcome the callback fires with
the None triple but the stored callback reference is not cleared. -/
theorem c7_timeout_not_cleared_cex :
    ((BLECentral.irq c7state BLECentral.Event.scanDone).2 =
      [BLECentral.Action.scanCb 7 none none none]) ∧
    (BLECentral.irq c7state BLECentral.Event.scanDone).1.scan_callback = some 7 := by
  decide

/-- C7 amended: with a scan callback registered, the scan-done event fires it
exactly once — with the cached triple on success, with the None triple on timeout —
and the stored callback reference is cleared only in the success outcome; on
timeout it persists. -/
theorem c7_scan_done (s : BLECentral.CentralState) (cb : Nat)
    (h : s.scan_callback = some cb) :
    ((BLECentral.irq s BLECentral.Event.scanDone).2.length = 1) ∧
    (truthyBytes s.addr = true →
      (BLECentral.irq s BLECentral.Event.scanDone).2 =
          [BLECentral.Action.scanCb cb s.addr_type s.addr s.name] ∧
        (BLECentral.irq s BLECentral.Event.scanDone).1.scan_callback = none) ∧
    (truthyBytes s.addr = false →
      (BLECentral.irq s BLECentral.Event.scanDone).2 =
          [BLECentral.Action.scanCb cb none none none] ∧
        (BLECentral.irq s BLECentral.Event.scanDone).1.scan_callback = some cb) := by
  by_cases ha : truthyBytes s.addr = true <;>
    simp_all [BLECentral.irq]

/-- C7 witness: in the success outcome the callback reference is cleared. -/
theorem c7_witness :
    (BLECentral.irq c7wstate BLECentral.Event.scanDone).1.scan_callback = none :=
  ((c7_scan_done c7wstate 9 rfl).2.1 (by decide)).2

/-- C8 counterexample: scan() clears the cached address and address type but the
cached name from the previous cycle survives. -/
theorem c8_stale_name_cex :
    ((BLECentral.scan c8state (some 3)).1.addr = none) ∧
    ((BLECentral.scan c8state (some 3)).1.addr_type = none) ∧
    ¬ ((BLECentral.scan c8state (some 3)).1.name = none) := by decide

/-- C8 amended: every call to scan() clears the cached address and address type and
stores the callback before requesting the transport scan, but leaves the cached
name unchanged, so a stale name can survive into the new cycle. -/
theorem c8_scan_clears (s : BLECentral.CentralState) (cb : Option Nat) :
    ((BLECentral.scan s cb).1.addr = none) ∧
    ((BLECentral.scan s cb).1.addr_type = none) ∧
    ((BLECentral.scan s cb).1.scan_callback = cb) ∧
    ((BLECentral.scan s cb).1.name = s.name) ∧
    ((BLECentral.scan s cb).2 = [BLECentral.Action.gapScanStart 2000 30000 30000 true]) :=
  ⟨rfl, rfl, rfl, rfl, rfl⟩

/-- C9: for every buffer and every requested size at least the buffer length,
read(sz) returns the entire buffer contents and leaves the buffer empty. -/
theorem c9_read_oversize (s : BLEperipheral.PeripheralState) (sz : Nat)
    (h : s.rx_buffer.length ≤ sz) :
    BLEperipheral.read s (some sz) = (s.rx_buffer, { s with rx_buffer := [] }) := by
  by_cases hz : sz = 0
  · subst hz
    have hb : s.rx_buffer = [] := List.eq_nil_of_length_eq_zero (Nat.le_zero.mp h)
    simp [BLEperipheral.read, hb]
  · simp only [BLEperipheral.read, hz, if_false]
    rw [List.take_of_length_le h, List.drop_eq_nil_of_le h]

/-- C9 witness: reading 5 bytes from the 2-byte buffer returns both bytes and
empties the buffer. -/
theorem c9_witness :
    BLEperipheral.read p9state (some 5) = ([5, 6], { p9state with rx_buffer := [] }) :=
  c9_read_oversize p9state 5 (by decide)

/-- C10: connect stores the callback argument as the connection-ready callback
unconditionally — in particular on every failing call — and the call fails (returns
false) exactly when no explicit pair was supplied and a cached address component is
missing. -/
theorem c10_connect_stores_callback (s : BLECentral.CentralState)
    (ty : Option Nat) (ad : Option (List Nat)) (cb : Option Nat) :
    ((BLECentral.connect s ty ad cb).1.conn_callback = cb) ∧
    ((BLECentral.connect s ty ad cb).2.1 = false ↔
      ¬(ty.isSome = true ∧ ad.isSome = true) ∧
        (s.addr_type.isNone = true ∨ s.addr.isNone = true)) := by
  rcases ty with _ | tv <;> rcases ad with _ | av <;>
    simp [BLECentral.connect] <;> split <;> simp_all

